import Mathlib

/-!
Verification of the Identifile file-format detection engine.

The repository ships the engine's unit tests (`src/testFormat.py`); the engine
module itself (`Identifile.py`) is not part of the source tree, so the
definitions below are modelled from the specification (`spec.md`), with the
unit tests used to cross-check concrete expected values.  Bytes are modelled
as `Nat`, byte strings as `List Nat`, confidences as `Rat` (the spec's fixed
tier values 0.0 / 0.5 / 0.8 / 1.0 are all exact rationals).
-/

set_option maxRecDepth 4000

/-- Modelled from the spec: a signature rule (§3 Data Model).  `start` is the
ordered set of candidate byte sequences matched as an exact prefix at offset 0;
`end_` (spelled `end` in the spec, a Lean keyword) the candidates matched
exactly at the stream tail; `offset_match` an absolute byte offset with its
candidates; `tail_contains` the spec's ORC condition ("tail region contains"),
a pattern searched for inside the tail window; `heuristic_range` the inclusive
first-byte interval; `extensions` the lowercase filename suffixes used as a
fallback hint; `evidence` the fixed human-readable explanation string. -/
structure SignatureRule where
  start : List (List Nat)
  end_ : List (List Nat)
  offset_match : Option (Nat × List (List Nat))
  tail_contains : Option (List Nat)
  heuristic_range : Option (Nat × Nat)
  extensions : List String
  evidence : String
deriving DecidableEq

/-- The registry is a mapping from format identifier to rule; iteration order
(registration order) is an observable contract (spec §4.1), so it is kept as
an association list. -/
abbrev Registry := List (String × SignatureRule)

/-- `bytesStartWith pat l` is true when `pat` occurs as an exact prefix of
`l`; a pattern extending past the available bytes is simply no match
(spec §4.2 edge cases). -/
def bytesStartWith : List Nat → List Nat → Bool
  | [], _ => true
  | _ :: _, [] => false
  | p :: ps, b :: bs => p == b && bytesStartWith ps bs

/-- `bytesContain pat l` is true when `pat` occurs as a contiguous substring
of `l` (used for the spec's "tail region contains" condition). -/
def bytesContain (p : List Nat) : List Nat → Bool
  | [] => bytesStartWith p []
  | b :: bs => bytesStartWith p (b :: bs) || bytesContain p bs

/-- A rule is structural when it declares at least one exact byte condition;
heuristic-only and extension-only rules are not eligible for the structural
pass (spec §4.3 steps 1-2). -/
def isStructural (r : SignatureRule) : Bool :=
  !r.start.isEmpty || !r.end_.isEmpty || r.offset_match.isSome || r.tail_contains.isSome

/-- Start condition: vacuous when the rule declares no start patterns,
otherwise some candidate must be an exact prefix of the head window. -/
def startCond (r : SignatureRule) (head : List Nat) : Bool :=
  r.start.isEmpty || r.start.any (fun s => bytesStartWith s head)

/-- End condition: vacuous when no end patterns are declared; otherwise the
tail must be known (seekable or fully buffered source) and some candidate must
match exactly at the stream's tail. -/
def endCond (r : SignatureRule) (avail : List Nat) (tailKnown : Bool) : Bool :=
  r.end_.isEmpty ||
    (tailKnown && r.end_.any (fun e => bytesStartWith e (avail.drop (avail.length - e.length))))

/-- Offset condition: some candidate must match exactly at the declared
absolute byte offset; an out-of-range offset is simply no match. -/
def offsetCond (r : SignatureRule) (avail : List Nat) : Bool :=
  match r.offset_match with
  | none => true
  | some (off, pats) => pats.any (fun p => bytesStartWith p (avail.drop off))

/-- Tail-containment condition (the spec's ORC rule): the pattern must occur
inside the last `m` available bytes, and the tail must be known. -/
def tailContainsCond (r : SignatureRule) (avail : List Nat) (tailKnown : Bool) (m : Nat) : Bool :=
  match r.tail_contains with
  | none => true
  | some t => tailKnown && bytesContain t (avail.drop (avail.length - m))

/-- Heuristic condition (spec §4.3 step 3): the stream's first byte lies in
the rule's declared inclusive range. -/
def heurCond (r : SignatureRule) (avail : List Nat) : Bool :=
  match r.heuristic_range, avail.head? with
  | some (lo, hi), some b => Nat.ble lo b && Nat.ble b hi
  | _, _ => false

/-- Lowercases and strips one leading `.` so that extension hints compare
case-insensitively, including or excluding the leading separator (spec §4.3
step 4). -/
def normExt (s : String) : String :=
  match s.data.map Char.toLower with
  | '.' :: cs => ⟨cs⟩
  | cs => ⟨cs⟩

/-- Longest start pattern across the registry; the prober sizes the head
window to it (spec §4.2). -/
def maxStartLen (regs : Registry) : Nat :=
  regs.foldl (fun a p => p.2.start.foldl (fun b s => max b s.length) a) 0

/-- Longest tail-anchored pattern (end or tail-containment) across the
registry; the prober sizes the tail window to it. -/
def maxTailLen (regs : Registry) : Nat :=
  regs.foldl
    (fun a p =>
      max (p.2.end_.foldl (fun b s => max b s.length) a)
        (match p.2.tail_contains with | none => a | some t => max a t.length))
    0

/-- Last byte position (exclusive) any offset-anchored rule can touch. -/
def maxOffsetEnd (regs : Registry) : Nat :=
  regs.foldl
    (fun a p =>
      match p.2.offset_match with
      | none => a
      | some (off, pats) => max a (off + pats.foldl (fun b q => max b q.length) 0))
    0

/-- Length of the forward-linear prefix a restricted (non-seekable,
non-buffered) read obtains: enough for the head window and every offset
window (spec §4.2). -/
def probeLen (regs : Registry) : Nat :=
  max (maxStartLen regs) (maxOffsetEnd regs)

/-- The bytes visible to the matcher: the whole stream under full access
(seekable, or non-seekable with buffering opted in), otherwise only the
forward-linear prefix. -/
def availBytes (regs : Registry) (data : List Nat) (fullAccess : Bool) : List Nat :=
  if fullAccess then data else data.take (probeLen regs)

/-- Modelled from the spec: the immutable detection result (§3). -/
structure DetectionResult where
  format : String
  confidence : Rat
  evidence : String
deriving DecidableEq

/-- Static classification table (spec §4.4): compressed formats. -/
def COMPRESSED_FORMATS : List String :=
  ["gzip", "zstd", "bzip2", "lz4-frame", "xz", "snappy-framed", "snappy-snz",
   "snappy-raw", "brotli"]

/-- Static classification table (spec §4.4): archive formats. -/
def ARCHIVE_FORMATS : List String := ["zip", "7z", "tar"]

/-- Static classification table (spec §4.4): columnar formats. -/
def COLUMNAR_FORMATS : List String := ["parquet", "orc"]

/-- A result is known when its format is not the `unknown` fallback. -/
def DetectionResult.is_known (d : DetectionResult) : Bool :=
  d.format != "unknown"

/-- Classification predicate: compressed formats. -/
def DetectionResult.is_compressed (d : DetectionResult) : Bool :=
  COMPRESSED_FORMATS.contains d.format

/-- Classification predicate: archive formats. -/
def DetectionResult.is_archive (d : DetectionResult) : Bool :=
  ARCHIVE_FORMATS.contains d.format

/-- Classification predicate: columnar formats. -/
def DetectionResult.is_columnar (d : DetectionResult) : Bool :=
  COLUMNAR_FORMATS.contains d.format

/-- The values a `metadata()` entry can carry. -/
inductive MetaValue where
  | str : String → MetaValue
  | bool : Bool → MetaValue
  | num : Rat → MetaValue
deriving DecidableEq

/-- Modelled from the spec: the `metadata()` view, the same information as the
result rendered as a mapping from field name to value (spec §4.4). -/
def DetectionResult.metadata (d : DetectionResult) : List (String × MetaValue) :=
  [("format", .str d.format),
   ("confidence", .num d.confidence),
   ("evidence", .str d.evidence),
   ("is_known", .bool d.is_known),
   ("is_compressed", .bool d.is_compressed),
   ("is_archive", .bool d.is_archive),
   ("is_columnar", .bool d.is_columnar)]

/-- The fallback result when nothing matched (spec §4.3 step 5). -/
def unknownResult : DetectionResult :=
  ⟨"unknown", 0, "No decisive signature found."⟩

/-- Joint structural condition (spec §3 invariant / §4.3 steps 1-2): a rule is
decisive only when it is structural and every condition it declares holds. -/
def structMatch (n m : Nat) (avail : List Nat) (tailKnown : Bool) (r : SignatureRule) : Bool :=
  isStructural r &&
    (startCond r (avail.take n) &&
      (offsetCond r avail &&
        (tailContainsCond r avail tailKnown m &&
          endCond r avail tailKnown)))

/-- Extension-hint fallback (spec §4.3 step 4): first rule whose extension set
matches the normalized hint wins at reduced confidence, with evidence naming
the extension basis. -/
def extPass (regs : Registry) (hint : Option String) (useHint : Bool) : DetectionResult :=
  if useHint then
    match hint with
    | some h =>
      match regs.find? (fun p => p.2.extensions.any (fun e => normExt e == normExt h)) with
      | some (fid, _) => ⟨fid, mkRat 1 2, "Based on extension hint (" ++ h ++ ")."⟩
      | none => unknownResult
    | none => unknownResult
  else unknownResult

/-- Heuristic pass (spec §4.3 step 3): first rule whose first-byte range
contains the stream's first byte wins at reduced confidence. -/
def heurPass (regs : Registry) (avail : List Nat) (hint : Option String)
    (useHint : Bool) : DetectionResult :=
  match regs.find? (fun p => heurCond p.2 avail) with
  | some (fid, r) => ⟨fid, mkRat 1 2, r.evidence⟩
  | none => extPass regs hint useHint

/-- Structural pass (spec §4.3 steps 1-2): first rule in registry order whose
joint condition holds wins at full confidence; under a restricted read the
result is reported at the partial tier 0.8 with a partial-detection evidence
annotation (spec §4.2). -/
def structPass (regs : Registry) (avail : List Nat) (fullAccess : Bool)
    (hint : Option String) (useHint : Bool) : DetectionResult :=
  match regs.find? (fun p => structMatch (maxStartLen regs) (maxTailLen regs) avail fullAccess p.2) with
  | some (fid, r) =>
    if fullAccess then ⟨fid, 1, r.evidence⟩
    else ⟨fid, mkRat 4 5, r.evidence ++ " (partial detection)"⟩
  | none => heurPass regs avail hint useHint

/-- Modelled from the spec: `sniff_stream` (called `detect_stream` in spec §6;
the tests import it as `sniff_stream`), the core detection entry point over a
byte source with a seekability capability flag and buffering opt-in. -/
def sniff_stream (regs : Registry) (data : List Nat) (seekable : Bool)
    (extension_hint : Option String) (use_extension_hint : Bool)
    (buffer_non_seekable : Bool) : DetectionResult :=
  structPass regs (availBytes regs data (seekable || buffer_non_seekable))
    (seekable || buffer_non_seekable) extension_hint use_extension_hint

/-- Modelled from the spec: the error taxonomy (§7); `DuplicateFormat` is the
only hard failure of the registry. -/
inductive SigError where
  | DuplicateFormat : SigError
deriving DecidableEq

/-- Whether a format identifier is already registered. -/
def hasFormat (regs : Registry) (fid : String) : Bool :=
  regs.any (fun p => p.1 == fid)

/-- Modelled from the spec: `add_signature` / `register_signature` (§4.1):
fails with `DuplicateFormat` when the identifier exists and `overwrite` is
false; replaces in place when `overwrite` is true (preserving registry
order, as a Python dict assignment does); appends a new identifier. -/
def add_signature (regs : Registry) (fid : String) (rule : SignatureRule)
    (overwrite : Bool) : Except SigError Registry :=
  if hasFormat regs fid then
    if overwrite then
      .ok (regs.map (fun p => if p.1 == fid then (fid, rule) else p))
    else
      .error .DuplicateFormat
  else
    .ok (regs ++ [(fid, rule)])

/-- Built-in rule: gzip. -/
def gzipRule : SignatureRule :=
  ⟨[[0x1f, 0x8b]], [], none, none, none, [], "Starts with 1f 8b (gzip)."⟩

/-- Built-in rule: zstd. -/
def zstdRule : SignatureRule :=
  ⟨[[0x28, 0xb5, 0x2f, 0xfd]], [], none, none, none, [], "Starts with 28 b5 2f fd (zstd)."⟩

/-- Built-in rule: bzip2 (`BZh`). -/
def bzip2Rule : SignatureRule :=
  ⟨[[0x42, 0x5a, 0x68]], [], none, none, none, [], "Starts with 'BZh' (bzip2)."⟩

/-- Built-in rule: LZ4 frame. -/
def lz4Rule : SignatureRule :=
  ⟨[[0x04, 0x22, 0x4d, 0x18]], [], none, none, none, [], "Starts with 04 22 4d 18 (LZ4 frame)."⟩

/-- Built-in rule: XZ. -/
def xzRule : SignatureRule :=
  ⟨[[0xfd, 0x37, 0x7a, 0x58, 0x5a, 0x00]], [], none, none, none, [],
    "Starts with fd 37 7a 58 5a 00 (XZ)."⟩

/-- Built-in rule: ZIP (three `PK` variants). -/
def zipRule : SignatureRule :=
  ⟨[[0x50, 0x4b, 0x03, 0x04], [0x50, 0x4b, 0x05, 0x06], [0x50, 0x4b, 0x07, 0x08]],
    [], none, none, none, [], "Starts with PK (ZIP container)."⟩

/-- Built-in rule: 7z archive. -/
def sevenZRule : SignatureRule :=
  ⟨[[0x37, 0x7a, 0xbc, 0xaf, 0x27, 0x1c]], [], none, none, none, [],
    "Starts with 37 7a bc af 27 1c (7z archive)."⟩

/-- Built-in rule: Snappy framed (`ff 06 00 00 'sNaPpY'`). -/
def snappyFramedRule : SignatureRule :=
  ⟨[[0xff, 0x06, 0x00, 0x00, 0x73, 0x4e, 0x61, 0x50, 0x70, 0x59]], [], none, none, none, [],
    "Starts with ff 06 00 00 'sNaPpY' (Snappy framed)."⟩

/-- Built-in rule: obsolete Snappy SNZ (`SNZ\x01`). -/
def snappySnzRule : SignatureRule :=
  ⟨[[0x53, 0x4e, 0x5a, 0x01]], [], none, none, none, [],
    "Starts with 'SNZ\\x01' (obsolete Snappy SNZ format)."⟩

/-- Built-in rule: Brotli first-byte heuristic, range 0x91-0x9F. -/
def brotliRule : SignatureRule :=
  ⟨[], [], none, none, some (0x91, 0x9f), [],
    "First byte in range 0x91-0x9F (Brotli heuristic)."⟩

/-- Built-in rule: Parquet (`PAR1` at both start and end). -/
def parquetRule : SignatureRule :=
  ⟨[[0x50, 0x41, 0x52, 0x31]], [[0x50, 0x41, 0x52, 0x31]], none, none, none, [],
    "Has 'PAR1' at start and end (Parquet)."⟩

/-- Built-in rule: ORC (tail region contains `ORC`). -/
def orcRule : SignatureRule :=
  ⟨[], [], none, some [0x4f, 0x52, 0x43], none, [],
    "Tail contains 'ORC' in postscript (ORC)."⟩

/-- Built-in rule: tar (`ustar\x00` or `ustar  ` at absolute offset 257). -/
def tarRule : SignatureRule :=
  ⟨[], [], some (257, [[0x75, 0x73, 0x74, 0x61, 0x72, 0x00],
                       [0x75, 0x73, 0x74, 0x61, 0x72, 0x20, 0x20]]),
    none, none, [], "Has 'ustar' at offset 257 (TAR)."⟩

/-- Built-in rule: raw Snappy, extension-hint only. -/
def snappyRawRule : SignatureRule :=
  ⟨[], [], none, none, none, [".snz", ".snappy", ".sz"],
    "Based on extension hint (...)."⟩

/-- Modelled from the spec: the built-in signature table, in the spec §6
order (which, as registration order, is the matching precedence order). -/
def SIGNATURES : Registry :=
  [("gzip", gzipRule), ("zstd", zstdRule), ("bzip2", bzip2Rule),
   ("lz4-frame", lz4Rule), ("xz", xzRule), ("zip", zipRule),
   ("7z", sevenZRule), ("snappy-framed", snappyFramedRule),
   ("snappy-snz", snappySnzRule), ("brotli", brotliRule),
   ("parquet", parquetRule), ("orc", orcRule), ("tar", tarRule),
   ("snappy-raw", snappyRawRule)]

/-- The custom rule registered by the repository's `test_add_signature`. -/
def customRule : SignatureRule :=
  ⟨[[0xaa, 0xbb]], [], none, none, none, [], "Custom format start."⟩

/-- Stepping lemma: `find?` skips an element rejected by the predicate. -/
lemma find_cons_false {α : Type} (p : α → Bool) (x : α) (xs : List α) (h : p x = false) :
    List.find? p (x :: xs) = List.find? p xs := by
  simp [List.find?_cons, h]

/-- Stepping lemma: `find?` stops at an element accepted by the predicate. -/
lemma find_cons_true {α : Type} (p : α → Bool) (x : α) (xs : List α) (h : p x = true) :
    List.find? p (x :: xs) = some x := by
  simp [List.find?_cons, h]

/-- Under full access, a structural hit is reported at full confidence with
the winning rule's evidence. -/
lemma structPass_hit (regs : Registry) (avail : List Nat) (hint : Option String)
    (useHint : Bool) (fid : String) (r : SignatureRule)
    (h : List.find? (fun p => structMatch (maxStartLen regs) (maxTailLen regs) avail true p.2) regs
        = some (fid, r)) :
    structPass regs avail true hint useHint = ⟨fid, 1, r.evidence⟩ := by
  unfold structPass
  rw [h]
  rfl

/-- Dropping all but the last four bytes of a stream that ends in `PAR1`
yields exactly `PAR1`. -/
lemma drop_to_last_four (l : List Nat) :
    (l ++ [0x50, 0x41, 0x52, 0x31]).drop ((l ++ [0x50, 0x41, 0x52, 0x31]).length - 4)
      = [0x50, 0x41, 0x52, 0x31] := by
  have h4 : (l ++ [0x50, 0x41, 0x52, 0x31] : List Nat).length - 4 = l.length := by simp
  rw [h4]
  exact List.drop_left l _

/-- The parquet end condition holds on any stream whose last four bytes are
`PAR1`. -/
lemma endCond_parquet (avail : List Nat)
    (h : avail.drop (avail.length - 4) = [0x50, 0x41, 0x52, 0x31]) :
    endCond parquetRule avail true = true := by
  simp [endCond, parquetRule, bytesStartWith, h]

/-- A stream of `PAR1`, arbitrary padding, then `PAR1` is detected as parquet
at full confidence, for every padding. -/
lemma sniff_parquet_padding (pad : List Nat) :
    sniff_stream SIGNATURES
        (([0x50, 0x41, 0x52, 0x31] ++ pad) ++ [0x50, 0x41, 0x52, 0x31]) true none true false
      = ⟨"parquet", 1, "Has 'PAR1' at start and end (Parquet)."⟩ := by
  have hfind : List.find?
      (fun p => structMatch (maxStartLen SIGNATURES) (maxTailLen SIGNATURES)
        (([0x50, 0x41, 0x52, 0x31] ++ pad) ++ [0x50, 0x41, 0x52, 0x31]) true p.2) SIGNATURES
      = some ("parquet", parquetRule) := by
    unfold SIGNATURES
    rw [find_cons_false _ _ _ rfl, find_cons_false _ _ _ rfl, find_cons_false _ _ _ rfl,
      find_cons_false _ _ _ rfl, find_cons_false _ _ _ rfl, find_cons_false _ _ _ rfl,
      find_cons_false _ _ _ rfl, find_cons_false _ _ _ rfl, find_cons_false _ _ _ rfl,
      find_cons_false _ _ _ rfl]
    refine find_cons_true _ _ _ ?_
    show structMatch (maxStartLen SIGNATURES) (maxTailLen SIGNATURES)
      (([0x50, 0x41, 0x52, 0x31] ++ pad) ++ [0x50, 0x41, 0x52, 0x31]) true parquetRule = true
    have he : endCond parquetRule
        (([0x50, 0x41, 0x52, 0x31] ++ pad) ++ [0x50, 0x41, 0x52, 0x31]) true = true :=
      endCond_parquet _ (drop_to_last_four ([0x50, 0x41, 0x52, 0x31] ++ pad))
    simp only [structMatch, he]
    rfl
  exact structPass_hit SIGNATURES _ none true "parquet" parquetRule hfind

/-- C2: for every registered rule that declares start patterns, a stream
consisting of exactly the rule's start pattern followed by arbitrary padding
of any length ≥ 0 (and, for parquet — the one rule that also declares an end
condition — the correct end content) is detected as that rule's format at
confidence 1.0, with the rule's fixed evidence string. -/
theorem start_rules_full_confidence (pad : List Nat) :
    sniff_stream SIGNATURES ([0x1f, 0x8b] ++ pad) true none true false
      = ⟨"gzip", 1, "Starts with 1f 8b (gzip)."⟩ ∧
    sniff_stream SIGNATURES ([0x28, 0xb5, 0x2f, 0xfd] ++ pad) true none true false
      = ⟨"zstd", 1, "Starts with 28 b5 2f fd (zstd)."⟩ ∧
    sniff_stream SIGNATURES ([0x42, 0x5a, 0x68] ++ pad) true none true false
      = ⟨"bzip2", 1, "Starts with 'BZh' (bzip2)."⟩ ∧
    sniff_stream SIGNATURES ([0x04, 0x22, 0x4d, 0x18] ++ pad) true none true false
      = ⟨"lz4-frame", 1, "Starts with 04 22 4d 18 (LZ4 frame)."⟩ ∧
    sniff_stream SIGNATURES ([0xfd, 0x37, 0x7a, 0x58, 0x5a, 0x00] ++ pad) true none true false
      = ⟨"xz", 1, "Starts with fd 37 7a 58 5a 00 (XZ)."⟩ ∧
    sniff_stream SIGNATURES ([0x50, 0x4b, 0x03, 0x04] ++ pad) true none true false
      = ⟨"zip", 1, "Starts with PK (ZIP container)."⟩ ∧
    sniff_stream SIGNATURES ([0x50, 0x4b, 0x05, 0x06] ++ pad) true none true false
      = ⟨"zip", 1, "Starts with PK (ZIP container)."⟩ ∧
    sniff_stream SIGNATURES ([0x50, 0x4b, 0x07, 0x08] ++ pad) true none true false
      = ⟨"zip", 1, "Starts with PK (ZIP container)."⟩ ∧
    sniff_stream SIGNATURES ([0x37, 0x7a, 0xbc, 0xaf, 0x27, 0x1c] ++ pad) true none true false
      = ⟨"7z", 1, "Starts with 37 7a bc af 27 1c (7z archive)."⟩ ∧
    sniff_stream SIGNATURES
        ([0xff, 0x06, 0x00, 0x00, 0x73, 0x4e, 0x61, 0x50, 0x70, 0x59] ++ pad) true none true false
      = ⟨"snappy-framed", 1, "Starts with ff 06 00 00 'sNaPpY' (Snappy framed)."⟩ ∧
    sniff_stream SIGNATURES ([0x53, 0x4e, 0x5a, 0x01] ++ pad) true none true false
      = ⟨"snappy-snz", 1, "Starts with 'SNZ\\x01' (obsolete Snappy SNZ format)."⟩ ∧
    sniff_stream SIGNATURES
        ([0x50, 0x41, 0x52, 0x31] ++ pad ++ [0x50, 0x41, 0x52, 0x31]) true none true false
      = ⟨"parquet", 1, "Has 'PAR1' at start and end (Parquet)."⟩ :=
  ⟨rfl, rfl, rfl, rfl, rfl, rfl, rfl, rfl, rfl, rfl, rfl, sniff_parquet_padding pad⟩

/-- Witness for C2 at a concrete three-byte padding. -/
theorem start_rules_full_confidence_witness :
    (sniff_stream SIGNATURES ([0x1f, 0x8b] ++ [0, 0, 0]) true none true false).format = "gzip" :=
  congrArg DetectionResult.format (start_rules_full_confidence [0, 0, 0]).1

/-- C3: a rule declaring several of start/end/offset is confirmed only when
all declared conditions hold; concretely, a seekable stream with `PAR1` at
both ends is parquet at confidence 1.0 with the parquet evidence, while
`PAR1` at the start only yields unknown. -/
theorem parquet_joint_conditions :
    (∀ (n m : Nat) (avail : List Nat) (tk : Bool) (r : SignatureRule),
        structMatch n m avail tk r = true →
          startCond r (avail.take n) = true ∧ endCond r avail tk = true ∧
          offsetCond r avail = true ∧ tailContainsCond r avail tk m = true) ∧
    sniff_stream SIGNATURES
        ([0x50, 0x41, 0x52, 0x31] ++ List.replicate 100 0 ++ [0x50, 0x41, 0x52, 0x31])
        true none true false
      = ⟨"parquet", 1, "Has 'PAR1' at start and end (Parquet)."⟩ ∧
    (sniff_stream SIGNATURES ([0x50, 0x41, 0x52, 0x31] ++ List.replicate 100 0)
        true none true false).format = "unknown" := by
  refine ⟨?_, by decide, by decide⟩
  intro n m avail tk r h
  simp only [structMatch, Bool.and_eq_true] at h
  exact ⟨h.2.1, h.2.2.2.2, h.2.2.1, h.2.2.2.1⟩

/-- Witness for C3's universally quantified part, instantiated at the parquet
rule on the both-ends stream. -/
theorem parquet_joint_conditions_witness :
    startCond parquetRule
        (([0x50, 0x41, 0x52, 0x31] ++ List.replicate 100 0 ++ [0x50, 0x41, 0x52, 0x31]).take 10)
        = true ∧
    endCond parquetRule
        ([0x50, 0x41, 0x52, 0x31] ++ List.replicate 100 0 ++ [0x50, 0x41, 0x52, 0x31]) true
        = true := by
  have h := parquet_joint_conditions.1 10 4
    ([0x50, 0x41, 0x52, 0x31] ++ List.replicate 100 0 ++ [0x50, 0x41, 0x52, 0x31])
    true parquetRule (by decide)
  exact ⟨h.1, h.2.1⟩

/-- C4: the brotli heuristic looks at the first byte only: 0x90 yields
unknown, while every first byte between 0x91 and 0x9F inclusive yields brotli
at confidence 0.5 with the brotli evidence string. -/
theorem brotli_first_byte_heuristic :
    (sniff_stream SIGNATURES (0x90 :: List.replicate 100 0) true none true false).format
      = "unknown" ∧
    ∀ b : Nat, 0x91 ≤ b → b ≤ 0x9f →
      sniff_stream SIGNATURES (b :: List.replicate 100 0) true none true false
        = ⟨"brotli", mkRat 1 2, "First byte in range 0x91-0x9F (Brotli heuristic)."⟩ := by
  refine ⟨by decide, ?_⟩
  intro b h1 h2
  interval_cases b <;> decide

/-- Witness for C4 at the mid-range first byte 0x95. -/
theorem brotli_first_byte_heuristic_witness :
    sniff_stream SIGNATURES (0x95 :: List.replicate 100 0) true none true false
      = ⟨"brotli", mkRat 1 2, "First byte in range 0x91-0x9F (Brotli heuristic)."⟩ :=
  brotli_first_byte_heuristic.2 0x95 (by norm_num) (by norm_num)

/-- C1: registering an existing identifier with overwrite=false fails with
`DuplicateFormat`; a new identifier, or an existing one with overwrite=true,
succeeds; and after an overwrite (resp. a fresh registration) subsequent
detection uses the newly installed rule. -/
theorem register_signature_duplicate_and_overwrite :
    (∀ (regs : Registry) (fid : String) (rule : SignatureRule),
        hasFormat regs fid = true →
          add_signature regs fid rule false = .error .DuplicateFormat) ∧
    (∀ (regs : Registry) (fid : String) (rule : SignatureRule),
        hasFormat regs fid = false →
          ∃ regs2, add_signature regs fid rule false = .ok regs2) ∧
    (∀ (regs : Registry) (fid : String) (rule : SignatureRule),
        hasFormat regs fid = true →
          ∃ regs2, add_signature regs fid rule true = .ok regs2) ∧
    (add_signature SIGNATURES "gzip" customRule true).map
        (fun regs => sniff_stream regs ([0xaa, 0xbb] ++ List.replicate 100 0) true none true false)
      = .ok ⟨"gzip", 1, "Custom format start."⟩ ∧
    (add_signature SIGNATURES "custom" customRule false).map
        (fun regs => sniff_stream regs ([0xaa, 0xbb] ++ List.replicate 100 0) true none true false)
      = .ok ⟨"custom", 1, "Custom format start."⟩ := by
  refine ⟨?_, ?_, ?_, rfl, rfl⟩
  · intro regs fid rule h
    simp [add_signature, h]
  · intro regs fid rule h
    exact ⟨regs ++ [(fid, rule)], by simp [add_signature, h]⟩
  · intro regs fid rule h
    exact ⟨regs.map (fun p => if p.1 == fid then (fid, rule) else p),
      by simp [add_signature, h]⟩

/-- Witness for C1 on the built-in registry: `gzip` already exists so
re-registering it without overwrite fails, while a fresh identifier
succeeds. -/
theorem register_signature_duplicate_and_overwrite_witness :
    add_signature SIGNATURES "gzip" customRule false = .error .DuplicateFormat ∧
    (∃ regs2, add_signature SIGNATURES "newfmt" customRule false = .ok regs2) :=
  ⟨register_signature_duplicate_and_overwrite.1 SIGNATURES "gzip" customRule (by decide),
   register_signature_duplicate_and_overwrite.2.1 SIGNATURES "newfmt" customRule (by decide)⟩

/-- C5: on a non-seekable source without buffering, a gzip-magic stream is
detected as gzip at the partial tier 0.8 with evidence mentioning partial
detection, and a tail-dependent (ORC) stream yields unknown; with
buffer_non_seekable=true both detect at full confidence 1.0. -/
theorem non_seekable_detection_tiers :
    (sniff_stream SIGNATURES ([0x1f, 0x8b] ++ List.replicate 100 0) false none true false).format
      = "gzip" ∧
    (sniff_stream SIGNATURES ([0x1f, 0x8b] ++ List.replicate 100 0) false none true false).confidence
      = mkRat 4 5 ∧
    (∃ s1 s2 : String,
      (sniff_stream SIGNATURES ([0x1f, 0x8b] ++ List.replicate 100 0) false none true false).evidence
        = s1 ++ ("partial detection" ++ s2)) ∧
    (sniff_stream SIGNATURES (List.replicate 100 0 ++ [0x4f, 0x52, 0x43]) false none true false).format
      = "unknown" ∧
    sniff_stream SIGNATURES ([0x1f, 0x8b] ++ List.replicate 100 0) false none true true
      = ⟨"gzip", 1, "Starts with 1f 8b (gzip)."⟩ ∧
    sniff_stream SIGNATURES (List.replicate 100 0 ++ [0x4f, 0x52, 0x43]) false none true true
      = ⟨"orc", 1, "Tail contains 'ORC' in postscript (ORC)."⟩ :=
  ⟨by decide, by decide, ⟨"Starts with 1f 8b (gzip). (", ")", by decide⟩,
   by decide, by decide, by decide⟩

/-- C6: the extension-hint fallback fires only when no byte rule matched:
a signatureless stream with hint .snz/.snappy/.sz is snappy-raw at 0.5 with
evidence naming the extension; a gzip-magic stream with a .snz hint is gzip
at 1.0; a signatureless stream without a hint is unknown. -/
theorem extension_hint_fallback :
    sniff_stream SIGNATURES (List.replicate 100 0) true (some ".snz") true false
      = ⟨"snappy-raw", mkRat 1 2, "Based on extension hint (.snz)."⟩ ∧
    sniff_stream SIGNATURES (List.replicate 100 0) true (some ".snappy") true false
      = ⟨"snappy-raw", mkRat 1 2, "Based on extension hint (.snappy)."⟩ ∧
    sniff_stream SIGNATURES (List.replicate 100 0) true (some ".sz") true false
      = ⟨"snappy-raw", mkRat 1 2, "Based on extension hint (.sz)."⟩ ∧
    sniff_stream SIGNATURES ([0x1f, 0x8b] ++ List.replicate 100 0) true (some ".snz") true false
      = ⟨"gzip", 1, "Starts with 1f 8b (gzip)."⟩ ∧
    (sniff_stream SIGNATURES (List.replicate 100 0) true none true false).format = "unknown" :=
  ⟨by decide, by decide, by decide, by decide, by decide⟩

/-- C7: a stream matching no structural rule, no heuristic range, with no
hint, yields the unknown result value (format "unknown", confidence 0.0,
the fixed evidence string) with every classification predicate false. -/
theorem unknown_fallback_result :
    sniff_stream SIGNATURES
        ([114, 97, 110, 100, 111, 109, 95, 100, 97, 116, 97, 95, 119, 105, 116, 104,
          111, 117, 116, 95, 115, 105, 103, 110, 97, 116, 117, 114, 101] ++ List.replicate 100 0)
        true none true false
      = ⟨"unknown", 0, "No decisive signature found."⟩ ∧
    unknownResult.is_known = false ∧ unknownResult.is_compressed = false ∧
    unknownResult.is_archive = false ∧ unknownResult.is_columnar = false :=
  ⟨by decide, by decide, by decide, by decide, by decide⟩

/-- C8: short streams never fail: any stream that starts with the 2-byte gzip
magic — including the 2-byte stream itself — detects as gzip, while a 200-byte
all-zero stream (shorter than the tar offset window) is unknown, the
out-of-range tar probe being treated as a non-match rather than an error. -/
theorem short_stream_no_failure :
    (∀ data : List Nat, bytesStartWith [0x1f, 0x8b] data = true →
        sniff_stream SIGNATURES data true none true false
          = ⟨"gzip", 1, "Starts with 1f 8b (gzip)."⟩) ∧
    (sniff_stream SIGNATURES (List.replicate 200 0) true none true false).format = "unknown" := by
  refine ⟨?_, by decide⟩
  intro data h
  obtain _ | ⟨a, _ | ⟨b, rest⟩⟩ := data
  · simp [bytesStartWith] at h
  · simp [bytesStartWith] at h
  · simp only [bytesStartWith, Bool.and_eq_true, beq_iff_eq, and_true] at h
    obtain ⟨h1, h2⟩ := h
    subst h1
    subst h2
    rfl

/-- Witness for C8 at the 2-byte stream consisting of exactly the gzip
magic. -/
theorem short_stream_no_failure_witness :
    sniff_stream SIGNATURES [0x1f, 0x8b] true none true false
      = ⟨"gzip", 1, "Starts with 1f 8b (gzip)."⟩ :=
  short_stream_no_failure.1 [0x1f, 0x8b] (by decide)

/-- C9: the tar rule matches only at the exact absolute offset 257, for both
magics `ustar\x00` and `ustar  `; the same magic at offset 256 yields
unknown. -/
theorem tar_offset_anchored :
    sniff_stream SIGNATURES
        (List.replicate 257 0 ++ [0x75, 0x73, 0x74, 0x61, 0x72, 0x00] ++ List.replicate 100 0)
        true none true false
      = ⟨"tar", 1, "Has 'ustar' at offset 257 (TAR)."⟩ ∧
    sniff_stream SIGNATURES
        (List.replicate 257 0 ++ [0x75, 0x73, 0x74, 0x61, 0x72, 0x20, 0x20] ++ List.replicate 100 0)
        true none true false
      = ⟨"tar", 1, "Has 'ustar' at offset 257 (TAR)."⟩ ∧
    (sniff_stream SIGNATURES
        (List.replicate 256 0 ++ [0x75, 0x73, 0x74, 0x61, 0x72, 0x00] ++ List.replicate 100 0)
        true none true false).format = "unknown" :=
  ⟨by decide, by decide, by decide⟩

/-- C10: for every detection result, the metadata view round-trips: its
format field equals the result's format, and its boolean fields equal each
classification predicate exactly. -/
theorem metadata_round_trip (d : DetectionResult) :
    List.lookup "format" d.metadata = some (.str d.format) ∧
    List.lookup "is_compressed" d.metadata = some (.bool d.is_compressed) ∧
    List.lookup "is_archive" d.metadata = some (.bool d.is_archive) ∧
    List.lookup "is_columnar" d.metadata = some (.bool d.is_columnar) :=
  ⟨rfl, rfl, rfl, rfl⟩

/-- Witness for C10 at the unknown result. -/
theorem metadata_round_trip_witness :
    List.lookup "format" unknownResult.metadata = some (.str unknownResult.format) :=
  (metadata_round_trip unknownResult).1
